import Mathlib

/-!
Shallow embedding of the MentorConnect in-memory storage layer
(`server/storage.ts`, class `MemStorage`) and the dashboard-stats HTTP
handler (`server/routes.ts`), with theorems checking the specification
claims against it.

Modelling conventions:
- A JS `Map<string, T>` is an insertion-ordered association list
  `List (String × T)`; `Map.set` overwrites in place or appends,
  `Map.delete` removes the entry and reports whether it existed,
  `Array.from(map.values())` is the list of values in order.
- JS `Date` timestamps are integers (milliseconds since the epoch);
  `new Date()` at call time becomes an explicit `now : Int` parameter.
- `crypto.randomUUID()` becomes an explicit fresh-id parameter; the
  freshness contract of the generator (a fresh UUID collides with no
  stored id) is a hypothesis where a claim needs it.
- Nullable columns of the Drizzle schema (`shared/schema.ts`) become
  `Option` fields, matching the inferred TypeScript types: `null` and
  `undefined` are both `none` (the storage code treats them alike via
  `||` and field spreads).
- The JS expression `x || null` on a nullable number is `orNullNum`
  (0 is falsy), on a nullable string `orNullStr` (the empty string is
  falsy); `x || d` with a string default is `orDefaultStr`.
-/

/-- JS `x || null` for a nullable number: 0 and absent both collapse
to null, every other number passes through. -/
def orNullNum : Option Int → Option Int
  | none => none
  | some n => if n = 0 then none else some n

/-- JS `x || null` for a nullable string: the empty string and absent
both collapse to null. -/
def orNullStr : Option String → Option String
  | none => none
  | some s => if s = "" then none else some s

/-- JS `x || d` for a nullable string with a string default. -/
def orDefaultStr (x : Option String) (d : String) : String :=
  match x with
  | none => d
  | some s => if s = "" then d else s

/-- Lookup in a JS-Map association list (`map.get(k)`). -/
def mapGet {α : Type} (k : String) : List (String × α) → Option α
  | [] => none
  | p :: rest => if p.1 == k then some p.2 else mapGet k rest

/-- Insertion in a JS-Map association list (`map.set(k, v)`): overwrite
in place when the key exists, append otherwise. -/
def mapSet {α : Type} (k : String) (v : α) : List (String × α) → List (String × α)
  | [] => [(k, v)]
  | p :: rest => if p.1 == k then (k, v) :: rest else p :: mapSet k v rest

/-- Deletion in a JS-Map association list (`map.delete(k)`): the Bool is
true exactly when an entry with the key existed, and the entry is gone
from the resulting map. -/
def mapDelete {α : Type} (k : String) (m : List (String × α)) :
    Bool × List (String × α) :=
  (m.any (fun p => p.1 == k), m.filter (fun p => p.1 != k))

/-- Values of a JS-Map association list (`Array.from(map.values())`). -/
def mapValues {α : Type} (m : List (String × α)) : List α :=
  m.map (fun p => p.2)

/-- User row, after `typeof users.$inferSelect` of `shared/schema.ts`:
columns without `.notNull()` are nullable. -/
structure User where
  id : String
  email : String
  password : String
  firstName : String
  lastName : String
  userType : String
  area : String
  bio : Option String
  skills : Option (List String)
  hourlyRate : Option Int
  rating : Option Int
  reviewCount : Option Int
  avatarUrl : Option String
  createdAt : Option Int
deriving Repr, DecidableEq

/-- Insert payload for a user (`insertUserSchema`): the user columns
minus id, createdAt, rating and reviewCount. -/
structure InsertUser where
  email : String
  password : String
  firstName : String
  lastName : String
  userType : String
  area : String
  bio : Option String := none
  skills : Option (List String) := none
  hourlyRate : Option Int := none
  avatarUrl : Option String := none
deriving Repr, DecidableEq

/-- Session row, after `typeof sessions.$inferSelect`. -/
structure Session where
  id : String
  studentId : String
  mentorId : String
  topic : String
  description : Option String
  scheduledAt : Int
  duration : Int
  status : String
  createdAt : Option Int
deriving Repr, DecidableEq

/-- Insert payload for a session (`insertSessionSchema`): the session
columns minus id and createdAt; status has a schema default, so it is
optional in the payload. -/
structure InsertSession where
  studentId : String
  mentorId : String
  topic : String
  description : Option String := none
  scheduledAt : Int
  duration : Int
  status : Option String := none
deriving Repr, DecidableEq

/-- Kanban item row, after `typeof kanbanItems.$inferSelect`. -/
structure KanbanItem where
  id : String
  title : String
  description : Option String
  type : String
  status : String
  points : Option Int
  assignee : Option String
  priority : Option String
  progress : Option Int
  createdAt : Option Int
deriving Repr, DecidableEq

/-- Insert payload for a kanban item (`insertKanbanItemSchema`): the
kanban columns minus id and createdAt; columns with schema defaults
are optional in the payload. -/
structure InsertKanbanItem where
  title : String
  description : Option String := none
  type : String
  status : Option String := none
  points : Option Int := none
  assignee : Option String := none
  priority : Option String := none
  progress : Option Int := none
deriving Repr, DecidableEq

/-- TypeScript `Partial<User>`: every field optional; a field that is
present may itself carry null when the column is nullable. -/
structure UserPatch where
  id : Option String := none
  email : Option String := none
  password : Option String := none
  firstName : Option String := none
  lastName : Option String := none
  userType : Option String := none
  area : Option String := none
  bio : Option (Option String) := none
  skills : Option (Option (List String)) := none
  hourlyRate : Option (Option Int) := none
  rating : Option (Option Int) := none
  reviewCount : Option (Option Int) := none
  avatarUrl : Option (Option String) := none
  createdAt : Option (Option Int) := none
deriving Repr, DecidableEq

/-- TypeScript `Partial<KanbanItem>`. -/
structure KanbanPatch where
  id : Option String := none
  title : Option String := none
  description : Option (Option String) := none
  type : Option String := none
  status : Option String := none
  points : Option (Option Int) := none
  assignee : Option (Option String) := none
  priority : Option (Option String) := none
  progress : Option (Option Int) := none
  createdAt : Option (Option Int) := none
deriving Repr, DecidableEq

/-- State of `MemStorage`: the three private maps. -/
structure MemStorage where
  users : List (String × User)
  sessions : List (String × Session)
  kanbanItems : List (String × KanbanItem)
deriving Repr, DecidableEq

/-- Empty storage state (no seed data). -/
def emptyStore : MemStorage := { users := [], sessions := [], kanbanItems := [] }

/-- MemStorage.getUser. -/
def getUser (id : String) (st : MemStorage) : Option User :=
  mapGet id st.users

/-- MemStorage.getUserByEmail: linear scan of the values for an exact
email match. -/
def getUserByEmail (email : String) (st : MemStorage) : Option User :=
  (mapValues st.users).find? (fun u => u.email == email)

/-- MemStorage.createUser. The generated `randomUUID()` is the explicit
`freshId` parameter and `new Date()` is `now`. The skills ternary keeps
an explicitly given empty list (a JS empty array is truthy), while the
`||`-defaulted fields collapse falsy values to null. -/
def createUser (freshId : String) (now : Int) (d : InsertUser) (st : MemStorage) :
    User × MemStorage :=
  let user : User :=
    { id := freshId
      email := d.email
      password := d.password
      firstName := d.firstName
      lastName := d.lastName
      userType := d.userType
      area := d.area
      bio := orNullStr d.bio
      skills := d.skills
      hourlyRate := orNullNum d.hourlyRate
      rating := some 0
      reviewCount := some 0
      avatarUrl := orNullStr d.avatarUrl
      createdAt := some now }
  (user, { st with users := mapSet freshId user st.users })

/-- Shallow merge `{ ...user, ...userData }` of a `Partial<User>` onto a
stored user. -/
def mergeUser (u : User) (p : UserPatch) : User :=
  { id := p.id.getD u.id
    email := p.email.getD u.email
    password := p.password.getD u.password
    firstName := p.firstName.getD u.firstName
    lastName := p.lastName.getD u.lastName
    userType := p.userType.getD u.userType
    area := p.area.getD u.area
    bio := p.bio.getD u.bio
    skills := p.skills.getD u.skills
    hourlyRate := p.hourlyRate.getD u.hourlyRate
    rating := p.rating.getD u.rating
    reviewCount := p.reviewCount.getD u.reviewCount
    avatarUrl := p.avatarUrl.getD u.avatarUrl
    createdAt := p.createdAt.getD u.createdAt }

/-- MemStorage.updateUser: absent id gives back undefined and leaves the
store untouched; otherwise the shallow merge is stored and returned. -/
def updateUser (id : String) (p : UserPatch) (st : MemStorage) :
    Option User × MemStorage :=
  match mapGet id st.users with
  | none => (none, st)
  | some u =>
      let u2 := mergeUser u p
      (some u2, { st with users := mapSet id u2 st.users })

/-- MemStorage.getMentors. -/
def getMentors (st : MemStorage) : List User :=
  (mapValues st.users).filter (fun u => u.userType == "mentor")

/-- MemStorage.createSession. -/
def createSession (freshId : String) (now : Int) (d : InsertSession) (st : MemStorage) :
    Session × MemStorage :=
  let s : Session :=
    { id := freshId
      studentId := d.studentId
      mentorId := d.mentorId
      topic := d.topic
      description := orNullStr d.description
      scheduledAt := d.scheduledAt
      duration := d.duration
      status := orDefaultStr d.status "pending"
      createdAt := some now }
  (s, { st with sessions := mapSet freshId s st.sessions })

/-- MemStorage.getUserSessions: the sessions where the user is the
student or the mentor. -/
def getUserSessions (userId : String) (st : MemStorage) : List Session :=
  (mapValues st.sessions).filter
    (fun s => s.studentId == userId || s.mentorId == userId)

/-- MemStorage.getUpcomingSessions: participant filter, strictly future
schedule, status not cancelled; `new Date()` is the `now` parameter. -/
def getUpcomingSessions (now : Int) (userId : String) (st : MemStorage) : List Session :=
  (mapValues st.sessions).filter
    (fun s => (s.studentId == userId || s.mentorId == userId)
      && decide (now < s.scheduledAt)
      && s.status != "cancelled")

/-- MemStorage.updateSessionStatus: `{ ...session, status }`. -/
def updateSessionStatus (id : String) (status : String) (st : MemStorage) :
    Option Session × MemStorage :=
  match mapGet id st.sessions with
  | none => (none, st)
  | some s =>
      let s2 := { s with status := status }
      (some s2, { st with sessions := mapSet id s2 st.sessions })

/-- MemStorage.getKanbanItems. -/
def getKanbanItems (st : MemStorage) : List KanbanItem :=
  mapValues st.kanbanItems

/-- MemStorage.createKanbanItem. Note that the source writes
`points: insertItem.points || null` (likewise priority and progress),
so an omitted or zero points value is stored as null. -/
def createKanbanItem (freshId : String) (now : Int) (d : InsertKanbanItem)
    (st : MemStorage) : KanbanItem × MemStorage :=
  let item : KanbanItem :=
    { id := freshId
      title := d.title
      description := orNullStr d.description
      type := d.type
      status := orDefaultStr d.status "backlog"
      points := orNullNum d.points
      assignee := orNullStr d.assignee
      priority := orNullStr d.priority
      progress := orNullNum d.progress
      createdAt := some now }
  (item, { st with kanbanItems := mapSet freshId item st.kanbanItems })

/-- Shallow merge `{ ...item, ...itemData }` of a `Partial<KanbanItem>`
onto a stored kanban item. -/
def mergeKanban (k : KanbanItem) (p : KanbanPatch) : KanbanItem :=
  { id := p.id.getD k.id
    title := p.title.getD k.title
    description := p.description.getD k.description
    type := p.type.getD k.type
    status := p.status.getD k.status
    points := p.points.getD k.points
    assignee := p.assignee.getD k.assignee
    priority := p.priority.getD k.priority
    progress := p.progress.getD k.progress
    createdAt := p.createdAt.getD k.createdAt }

/-- MemStorage.updateKanbanItem. -/
def updateKanbanItem (id : String) (p : KanbanPatch) (st : MemStorage) :
    Option KanbanItem × MemStorage :=
  match mapGet id st.kanbanItems with
  | none => (none, st)
  | some k =>
      let k2 := mergeKanban k p
      (some k2, { st with kanbanItems := mapSet id k2 st.kanbanItems })

/-- MemStorage.deleteKanbanItem: `this.kanbanItems.delete(id)`. -/
def deleteKanbanItem (id : String) (st : MemStorage) : Bool × MemStorage :=
  let r := mapDelete id st.kanbanItems
  (r.1, { st with kanbanItems := r.2 })

/-- The registration step of the `/api/auth/register` handler after
schema validation: the caller-level email-uniqueness check followed by
createUser only when the check finds nobody. -/
def register (freshId : String) (now : Int) (d : InsertUser) (st : MemStorage) :
    Option User × MemStorage :=
  match getUserByEmail d.email st with
  | some _ => (none, st)
  | none =>
      let r := createUser freshId now d st
      (some r.1, r.2)

/-- Response shape of the `/api/dashboard/stats/:userId` handler. -/
structure DashboardStats where
  scheduledSessions : Nat
  connectedMentors : Nat
  mentoringHours : Int
  averageRating : ℚ
deriving Repr, DecidableEq

/-- The `/api/dashboard/stats/:userId` handler body: all sessions of the
user, the upcoming ones, the completed ones, the set of mentor ids of
all the sessions of the user, and the rounded sum of completed durations
in hours. `new Set(list).size` is the length of the deduplicated list,
`Math.round` is round half towards positive infinity, and averageRating
is the hardcoded 4.8. -/
def computeDashboardStats (now : Int) (userId : String) (st : MemStorage) :
    DashboardStats :=
  let allSessions := getUserSessions userId st
  let upcomingSessions := getUpcomingSessions now userId st
  let completedSessions := allSessions.filter (fun s => s.status == "completed")
  let connectedMentors := ((allSessions.map (fun s => s.mentorId)).dedup).length
  let totalHours : ℚ :=
    completedSessions.foldl (fun sum s => sum + (s.duration : ℚ) / 60) 0
  { scheduledSessions := upcomingSessions.length
    connectedMentors := connectedMentors
    mentoringHours := round totalHours
    averageRating := 24 / 5 }

/-- Spec predicate: the user is a participant of the session (student or
mentor side). -/
def isParticipant (userId : String) (s : Session) : Prop :=
  s.studentId = userId ∨ s.mentorId = userId

instance (userId : String) (s : Session) : Decidable (isParticipant userId s) := by
  unfold isParticipant; infer_instance

/-- Spec predicate: an upcoming session of the user — participant match,
scheduled strictly after now, status not cancelled. -/
def isUpcoming (now : Int) (userId : String) (s : Session) : Prop :=
  isParticipant userId s ∧ now < s.scheduledAt ∧ s.status ≠ "cancelled"

instance (now : Int) (userId : String) (s : Session) : Decidable (isUpcoming now userId s) := by
  unfold isUpcoming; infer_instance

/-- Spec invariant: all stored users carry pairwise distinct emails. -/
def distinctEmails (st : MemStorage) : Prop :=
  ((mapValues st.users).map (fun u => u.email)).Nodup

/-! Helper lemmas about the JS-Map model. -/

theorem mapGet_mapSet_self {α : Type} (k : String) (v : α) (m : List (String × α)) :
    mapGet k (mapSet k v m) = some v := by
  induction m with
  | nil => simp [mapGet, mapSet]
  | cons p rest ih =>
      by_cases h : p.1 = k
      · simp [mapGet, mapSet, h]
      · simpa [mapGet, mapSet, h] using ih

theorem mapGet_mapSet_ne {α : Type} (k k2 : String) (v : α) (m : List (String × α))
    (h : k2 ≠ k) : mapGet k2 (mapSet k v m) = mapGet k2 m := by
  induction m with
  | nil => simp [mapGet, mapSet, Ne.symm h]
  | cons p rest ih =>
      by_cases hp : p.1 = k
      · by_cases hp2 : p.1 = k2
        · exact absurd (hp2.symm.trans hp) h
        · simp [mapGet, mapSet, hp, hp2, Ne.symm h]
      · by_cases hp2 : p.1 = k2
        · simp [mapGet, mapSet, hp, hp2, h]
        · simpa [mapGet, mapSet, hp, hp2] using ih

theorem mapGet_isSome_iff_any {α : Type} (k : String) (m : List (String × α)) :
    (mapGet k m).isSome = m.any (fun p => p.1 == k) := by
  induction m with
  | nil => simp [mapGet]
  | cons p rest ih =>
      by_cases hp : p.1 = k
      · simp [mapGet, hp]
      · have hb : (p.1 == k) = false := beq_eq_false_iff_ne.mpr hp
        simp [mapGet, hb, ih]

theorem mapGet_filter_ne_self {α : Type} (k : String) (m : List (String × α)) :
    mapGet k (m.filter (fun p => p.1 != k)) = none := by
  induction m with
  | nil => simp [mapGet]
  | cons p rest ih =>
      by_cases hp : p.1 = k
      · simpa [List.filter_cons, hp] using ih
      · simpa [List.filter_cons, mapGet, hp] using ih

theorem foldl_add_map_sum {α : Type} (f : α → ℚ) (l : List α) :
    ∀ a : ℚ, l.foldl (fun sum x => sum + f x) a = a + (l.map f).sum := by
  induction l with
  | nil => intro a; simp
  | cons x rest ih =>
      intro a
      simp only [List.foldl, List.map, List.sum_cons]
      rw [ih (a + f x)]
      ring

/-- Emails of the stored users, in map order. -/
def emailsOf (m : List (String × User)) : List String :=
  m.map (fun p => p.2.email)

theorem mem_emailsOf_mapSet (k : String) (u : User) (m : List (String × User))
    (e : String) (h : e ∈ emailsOf (mapSet k u m)) :
    e = u.email ∨ e ∈ emailsOf m := by
  induction m with
  | nil => simpa [emailsOf, mapSet] using h
  | cons p rest ih =>
      by_cases hp : p.1 = k
      · simp only [mapSet, beq_iff_eq, hp, if_true] at h
        rcases (by simpa [emailsOf] using h) with h1 | h2
        · exact Or.inl h1
        · exact Or.inr (by simp [emailsOf]; right; simpa [emailsOf] using h2)
      · simp only [mapSet, beq_iff_eq, hp, if_false] at h
        rcases (by simpa [emailsOf] using h) with h1 | h2
        · exact Or.inr (by simp [emailsOf, h1])
        · rcases ih (by simpa [emailsOf] using h2) with h3 | h4
          · exact Or.inl h3
          · exact Or.inr (by simp [emailsOf]; right; simpa [emailsOf] using h4)

theorem nodup_emailsOf_mapSet (k : String) (u : User) (m : List (String × User))
    (hne : u.email ∉ emailsOf m) (hnd : (emailsOf m).Nodup) :
    (emailsOf (mapSet k u m)).Nodup := by
  induction m with
  | nil => simp [emailsOf, mapSet]
  | cons p rest ih =>
      simp only [emailsOf, List.map_cons, List.nodup_cons] at hnd
      have hne2 : u.email ∉ emailsOf rest := fun hmem =>
        hne (by simp [emailsOf]; right; simpa [emailsOf] using hmem)
      by_cases hp : p.1 = k
      · simp only [mapSet, beq_iff_eq, hp, if_true]
        refine List.nodup_cons.mpr ⟨?_, hnd.2⟩
        simpa [emailsOf] using hne2
      · simp only [mapSet, beq_iff_eq, hp, if_false]
        refine List.nodup_cons.mpr ⟨?_, ih hne2 hnd.2⟩
        intro hmem
        rcases mem_emailsOf_mapSet k u rest p.2.email (by simpa [emailsOf] using hmem) with
          h1 | h2
        · exact hne (by simp [emailsOf, h1])
        · exact hnd.1 (by simpa [emailsOf] using h2)

theorem getUserByEmail_eq_none_iff (email : String) (st : MemStorage) :
    getUserByEmail email st = none ↔ ∀ u ∈ mapValues st.users, u.email ≠ email := by
  simp [getUserByEmail, List.find?_eq_none]

/-! Bridging lemmas between the Bool-level filters of the code and the
Prop-level spec predicates. -/

theorem participant_cond_eq (userId : String) (s : Session) :
    (s.studentId == userId || s.mentorId == userId)
      = decide (isParticipant userId s) := by
  rw [Bool.eq_iff_iff]
  simp [isParticipant]

theorem upcoming_cond_eq (now : Int) (userId : String) (s : Session) :
    ((s.studentId == userId || s.mentorId == userId)
        && decide (now < s.scheduledAt) && s.status != "cancelled")
      = decide (isUpcoming now userId s) := by
  rw [Bool.eq_iff_iff]
  simp [isUpcoming, isParticipant, and_assoc]

theorem getUserSessions_eq_filter (userId : String) (st : MemStorage) :
    getUserSessions userId st
      = (mapValues st.sessions).filter (fun s => decide (isParticipant userId s)) := by
  unfold getUserSessions
  exact List.filter_congr (fun s _ => participant_cond_eq userId s)

theorem getUpcomingSessions_eq_filter (now : Int) (userId : String) (st : MemStorage) :
    getUpcomingSessions now userId st
      = (mapValues st.sessions).filter (fun s => decide (isUpcoming now userId s)) := by
  unfold getUpcomingSessions
  exact List.filter_congr (fun s _ => upcoming_cond_eq now userId s)

theorem completed_filter_eq (userId : String) (st : MemStorage) :
    (getUserSessions userId st).filter (fun s => s.status == "completed")
      = (mapValues st.sessions).filter
          (fun s => decide (isParticipant userId s ∧ s.status = "completed")) := by
  rw [getUserSessions_eq_filter, List.filter_filter]
  apply List.filter_congr
  intro s _
  rw [Bool.eq_iff_iff]
  simp
  tauto

/-! Concrete fixtures used by the example parts of the claims and by
witnesses. -/

/-- Session fixture with the shape used by the dashboard-stats example. -/
def exampleSession (i : String) (mId : String) (dur : Int) (stat : String) : Session :=
  { id := i
    studentId := "student9"
    mentorId := mId
    topic := "topic"
    description := none
    scheduledAt := 1000
    duration := dur
    status := stat
    createdAt := some 0 }

/-- Store holding exactly the three sessions of the dashboard-stats
example of the spec. -/
def statsStore : MemStorage :=
  { users := []
    kanbanItems := []
    sessions :=
      [("s1", exampleSession "s1" "mentorA" 60 "completed"),
       ("s2", exampleSession "s2" "mentorB" 90 "completed"),
       ("s3", exampleSession "s3" "mentorA" 30 "pending")] }

/-- C2: for every user id, store state and current time,
getUpcomingSessions returns exactly the stored sessions s such that the
user is a participant (student or mentor), scheduledAt is strictly after
the current time, and the status is not cancelled; so it never returns a
cancelled session or a session scheduled in the past. -/
theorem getUpcomingSessions_exact (now : Int) (userId : String) (st : MemStorage)
    (s : Session) :
    s ∈ getUpcomingSessions now userId st ↔
      s ∈ mapValues st.sessions ∧
        (s.studentId = userId ∨ s.mentorId = userId) ∧
        now < s.scheduledAt ∧ s.status ≠ "cancelled" := by
  rw [getUpcomingSessions_eq_filter, List.mem_filter]
  simp [isUpcoming, isParticipant]

/-- C1: for every user id and store state, the dashboard stats satisfy:
scheduledSessions counts the upcoming sessions of the user (participant
match, strictly future, not cancelled), connectedMentors counts the
distinct mentorId values across all sessions where the user is student
or mentor, and mentoringHours is the rounded sum of duration/60 over the
completed sessions of the user; on the example store with sessions
[(mentorA, 60, completed), (mentorB, 90, completed), (mentorA, 30,
pending)], connectedMentors is 2 and mentoringHours is 3. -/
theorem computeDashboardStats_correct (now : Int) (userId : String) (st : MemStorage) :
    ((computeDashboardStats now userId st).scheduledSessions
        = (mapValues st.sessions).countP (fun s => decide (isUpcoming now userId s)))
    ∧ ((computeDashboardStats now userId st).connectedMentors
        = (((mapValues st.sessions).filter (fun s => decide (isParticipant userId s))).map
            (fun s => s.mentorId)).toFinset.card)
    ∧ ((computeDashboardStats now userId st).mentoringHours
        = round ((((mapValues st.sessions).filter
            (fun s => decide (isParticipant userId s ∧ s.status = "completed"))).map
            (fun s => (s.duration : ℚ) / 60)).sum))
    ∧ (computeDashboardStats 0 "student9" statsStore).connectedMentors = 2
    ∧ (computeDashboardStats 0 "student9" statsStore).mentoringHours = 3 := by
  refine ⟨?_, ?_, ?_, ?_, ?_⟩
  · show (getUpcomingSessions now userId st).length = _
    rw [getUpcomingSessions_eq_filter, List.countP_eq_length_filter]
  · show ((getUserSessions userId st).map (fun s => s.mentorId)).dedup.length = _
    rw [getUserSessions_eq_filter, List.card_toFinset]
  · show round (((getUserSessions userId st).filter
        (fun s => s.status == "completed")).foldl
          (fun sum s => sum + (s.duration : ℚ) / 60) 0) = _
    rw [completed_filter_eq, foldl_add_map_sum, zero_add]
  · decide
  · show round (((getUserSessions "student9" statsStore).filter
        (fun s => s.status == "completed")).foldl
          (fun sum s => sum + (s.duration : ℚ) / 60) 0) = 3
    have hl : (getUserSessions "student9" statsStore).filter
        (fun s => s.status == "completed")
        = [exampleSession "s1" "mentorA" 60 "completed",
           exampleSession "s2" "mentorB" 90 "completed"] := by decide
    rw [hl]
    simp only [List.foldl, exampleSession]
    norm_num [round_eq]

/-- C3 (failing input): createKanbanItem stores points as null both when
points is omitted and when it is explicitly 0, because the source writes
`points: insertItem.points || null` and 0 is falsy in JS — while the
schema declares `integer("points").default(0)`. The remaining defaults
of the claim do hold on the same input: description null, assignee null,
status backlog. -/
theorem createKanbanItem_points_zero_is_null :
    ((createKanbanItem "k1" 0 { title := "t", type := "task", points := some 0 }
        emptyStore).1.points = none)
    ∧ ((createKanbanItem "k1" 0 { title := "t", type := "task" }
        emptyStore).1.points = none)
    ∧ ((createKanbanItem "k1" 0 { title := "t", type := "task", points := some 0 }
        emptyStore).1.description = none)
    ∧ ((createKanbanItem "k1" 0 { title := "t", type := "task", points := some 0 }
        emptyStore).1.assignee = none)
    ∧ ((createKanbanItem "k1" 0 { title := "t", type := "task", points := some 0 }
        emptyStore).1.status = "backlog") := by
  decide

/-- C4: createUser returns and stores a user whose id is the freshly
generated one (distinct from every stored id by the freshness contract
of randomUUID, taken as the hypothesis), rating 0, reviewCount 0, the
absent optional fields defaulted to null, and creation timestamp now. -/
theorem createUser_defaults (freshId : String) (now : Int) (d : InsertUser)
    (st : MemStorage) (hfresh : mapGet freshId st.users = none) :
    ((createUser freshId now d st).1.id = freshId)
    ∧ mapGet (createUser freshId now d st).1.id st.users = none
    ∧ (createUser freshId now d st).1.rating = some 0
    ∧ (createUser freshId now d st).1.reviewCount = some 0
    ∧ (d.bio = none → (createUser freshId now d st).1.bio = none)
    ∧ (d.skills = none → (createUser freshId now d st).1.skills = none)
    ∧ (d.hourlyRate = none → (createUser freshId now d st).1.hourlyRate = none)
    ∧ (d.avatarUrl = none → (createUser freshId now d st).1.avatarUrl = none)
    ∧ (createUser freshId now d st).1.createdAt = some now
    ∧ mapGet freshId (createUser freshId now d st).2.users
        = some (createUser freshId now d st).1 := by
  refine ⟨rfl, hfresh, rfl, rfl, ?_, ?_, ?_, ?_, rfl, ?_⟩
  · intro h; simp [createUser, h, orNullStr]
  · intro h; simp [createUser, h]
  · intro h; simp [createUser, h, orNullNum]
  · intro h; simp [createUser, h, orNullStr]
  · exact mapGet_mapSet_self _ _ _

/-- Concrete user payload for witnesses. -/
def demoInsertUser : InsertUser :=
  { email := "a@b.c"
    password := "secret"
    firstName := "A"
    lastName := "B"
    userType := "student"
    area := "tech" }

/-- Witness for C4 at a concrete fresh id, time, payload and the empty
store. -/
theorem createUser_defaults_witness :
    mapGet "fresh-1" emptyStore.users = none
    ∧ (createUser "fresh-1" 5 demoInsertUser emptyStore).1.rating = some 0
    ∧ (createUser "fresh-1" 5 demoInsertUser emptyStore).1.bio = none := by
  refine ⟨rfl, ?_, ?_⟩
  · exact (createUser_defaults "fresh-1" 5 demoInsertUser emptyStore rfl).2.2.1
  · exact (createUser_defaults "fresh-1" 5 demoInsertUser emptyStore rfl).2.2.2.2.1 rfl

/-- C7: deleteKanbanItem reports true exactly when an item with the id
is present, and a second delete of the same id always reports false. -/
theorem deleteKanbanItem_correct (id : String) (st : MemStorage) :
    ((deleteKanbanItem id st).1 = (mapGet id st.kanbanItems).isSome)
    ∧ (deleteKanbanItem id (deleteKanbanItem id st).2).1 = false := by
  constructor
  · exact (mapGet_isSome_iff_any id st.kanbanItems).symm
  · have h1 : (deleteKanbanItem id (deleteKanbanItem id st).2).1
        = (mapGet id (st.kanbanItems.filter (fun p => p.1 != id))).isSome :=
      (mapGet_isSome_iff_any id _).symm
    rw [h1, mapGet_filter_ne_self]
    rfl

/-- C8: for each entity kind, looking up the id of a just-created entity
immediately after create returns exactly the entity the create operation
returned, with the server-populated fields already in place. -/
theorem create_then_get_roundtrip (fU fS fK : String) (now : Int) (du : InsertUser)
    (ds : InsertSession) (dk : InsertKanbanItem) (st : MemStorage) :
    (getUser (createUser fU now du st).1.id (createUser fU now du st).2
        = some (createUser fU now du st).1)
    ∧ (mapGet (createSession fS now ds st).1.id (createSession fS now ds st).2.sessions
        = some (createSession fS now ds st).1)
    ∧ (mapGet (createKanbanItem fK now dk st).1.id
          (createKanbanItem fK now dk st).2.kanbanItems
        = some (createKanbanItem fK now dk st).1)
    ∧ (createUser fU now du st).1.rating = some 0
    ∧ (createUser fU now du st).1.reviewCount = some 0
    ∧ (createUser fU now du st).1.createdAt = some now
    ∧ (createSession fS now ds st).1.createdAt = some now
    ∧ (createKanbanItem fK now dk st).1.createdAt = some now := by
  refine ⟨?_, ?_, ?_, rfl, rfl, rfl, rfl, rfl⟩
  · exact mapGet_mapSet_self _ _ _
  · exact mapGet_mapSet_self _ _ _
  · exact mapGet_mapSet_self _ _ _

/-- C10: an hourlyRate given explicitly as 0 is stored as null, exactly
as if the field had been omitted; the whole create result coincides with
the one for the omitted field. -/
theorem createUser_hourlyRate_zero (freshId : String) (now : Int) (d : InsertUser)
    (st : MemStorage) (h : d.hourlyRate = some 0) :
    ((createUser freshId now d st).1.hourlyRate = none)
    ∧ mapGet freshId (createUser freshId now d st).2.users
        = some (createUser freshId now d st).1
    ∧ createUser freshId now d st
        = createUser freshId now { d with hourlyRate := none } st := by
  refine ⟨?_, ?_, ?_⟩
  · simp [createUser, h, orNullNum]
  · exact mapGet_mapSet_self _ _ _
  · cases d
    simp_all [createUser, orNullNum]

/-- Witness for C10 at a concrete payload whose hourlyRate is explicitly
zero. -/
theorem createUser_hourlyRate_zero_witness :
    ({ demoInsertUser with hourlyRate := some 0 } : InsertUser).hourlyRate = some 0
    ∧ (createUser "fresh-1" 5 { demoInsertUser with hourlyRate := some 0 }
        emptyStore).1.hourlyRate = none :=
  ⟨rfl, (createUser_hourlyRate_zero "fresh-1" 5
    { demoInsertUser with hourlyRate := some 0 } emptyStore rfl).1⟩

/-- Fixture user stored under id u1. -/
def demoUser : User :=
  { id := "u1"
    email := "a@b.c"
    password := "pw"
    firstName := "A"
    lastName := "B"
    userType := "student"
    area := "tech"
    bio := none
    skills := none
    hourlyRate := none
    rating := some 0
    reviewCount := some 0
    avatarUrl := none
    createdAt := some 0 }

/-- Fixture session stored under id s1. -/
def demoSession : Session := exampleSession "s1" "mentorA" 60 "pending"

/-- Fixture kanban item stored under id k1. -/
def demoKanban : KanbanItem :=
  { id := "k1"
    title := "t"
    description := none
    type := "task"
    status := "backlog"
    points := none
    assignee := none
    priority := none
    progress := none
    createdAt := some 0 }

/-- Store holding one entity of each kind. -/
def demoStore : MemStorage :=
  { users := [("u1", demoUser)]
    sessions := [("s1", demoSession)]
    kanbanItems := [("k1", demoKanban)] }

/-- C6: each update operation is a total function that returns an
explicit absent value for an unknown id (the embedding is a total Lean
function, so no exception is possible) and the updated entity for a
known id. -/
theorem update_not_found_behaviour (id : String) (p : UserPatch) (q : KanbanPatch)
    (newStatus : String) (st : MemStorage) :
    (mapGet id st.users = none → (updateUser id p st).1 = none)
    ∧ (mapGet id st.sessions = none → (updateSessionStatus id newStatus st).1 = none)
    ∧ (mapGet id st.kanbanItems = none → (updateKanbanItem id q st).1 = none)
    ∧ (∀ u, mapGet id st.users = some u →
        (updateUser id p st).1 = some (mergeUser u p))
    ∧ (∀ s, mapGet id st.sessions = some s →
        (updateSessionStatus id newStatus st).1 = some { s with status := newStatus })
    ∧ (∀ k, mapGet id st.kanbanItems = some k →
        (updateKanbanItem id q st).1 = some (mergeKanban k q)) := by
  refine ⟨?_, ?_, ?_, ?_, ?_, ?_⟩
  · intro h; simp [updateUser, h]
  · intro h; simp [updateSessionStatus, h]
  · intro h; simp [updateKanbanItem, h]
  · intro u h; simp [updateUser, h]
  · intro s h; simp [updateSessionStatus, h]
  · intro k h; simp [updateKanbanItem, h]

/-- Witness for C6: the empty store answers none for all three updates,
and the demo store answers the merged entity. -/
theorem update_not_found_behaviour_witness :
    (updateUser "x" {} emptyStore).1 = none
    ∧ (updateSessionStatus "x" "confirmed" emptyStore).1 = none
    ∧ (updateKanbanItem "x" {} emptyStore).1 = none
    ∧ (updateKanbanItem "k1" {} demoStore).1 = some (mergeKanban demoKanban {}) :=
  ⟨(update_not_found_behaviour "x" {} {} "confirmed" emptyStore).1 rfl,
   (update_not_found_behaviour "x" {} {} "confirmed" emptyStore).2.1 rfl,
   (update_not_found_behaviour "x" {} {} "confirmed" emptyStore).2.2.1 rfl,
   (update_not_found_behaviour "k1" {} {} "confirmed" demoStore).2.2.2.2.2
     demoKanban rfl⟩

/-- C9: every update is a shallow merge that frames unmentioned fields:
fields named in the patch carry the new values, every unnamed field is
unchanged, the merged entity is what is stored, entries under other ids
are unchanged, and the other two maps are untouched (for
updateKanbanItem the source leaves users and sessions untouched in the
same way, framed here through the ids of the other maps). -/
theorem update_shallow_merge_frame (idU idS idK : String) (p : UserPatch)
    (q : KanbanPatch) (newStatus : String) (st : MemStorage)
    (u : User) (s : Session) (k : KanbanItem)
    (hu : mapGet idU st.users = some u)
    (hs : mapGet idS st.sessions = some s)
    (hk : mapGet idK st.kanbanItems = some k) :
    (∃ u2, (updateUser idU p st).1 = some u2
      ∧ u2.id = p.id.getD u.id
      ∧ u2.email = p.email.getD u.email
      ∧ u2.password = p.password.getD u.password
      ∧ u2.firstName = p.firstName.getD u.firstName
      ∧ u2.lastName = p.lastName.getD u.lastName
      ∧ u2.userType = p.userType.getD u.userType
      ∧ u2.area = p.area.getD u.area
      ∧ u2.bio = p.bio.getD u.bio
      ∧ u2.skills = p.skills.getD u.skills
      ∧ u2.hourlyRate = p.hourlyRate.getD u.hourlyRate
      ∧ u2.rating = p.rating.getD u.rating
      ∧ u2.reviewCount = p.reviewCount.getD u.reviewCount
      ∧ u2.avatarUrl = p.avatarUrl.getD u.avatarUrl
      ∧ u2.createdAt = p.createdAt.getD u.createdAt
      ∧ mapGet idU (updateUser idU p st).2.users = some u2
      ∧ (∀ id2, id2 ≠ idU →
          mapGet id2 (updateUser idU p st).2.users = mapGet id2 st.users)
      ∧ (updateUser idU p st).2.sessions = st.sessions
      ∧ (updateUser idU p st).2.kanbanItems = st.kanbanItems)
    ∧ (∃ s2, (updateSessionStatus idS newStatus st).1 = some s2
      ∧ s2.status = newStatus
      ∧ s2.id = s.id ∧ s2.studentId = s.studentId ∧ s2.mentorId = s.mentorId
      ∧ s2.topic = s.topic ∧ s2.description = s.description
      ∧ s2.scheduledAt = s.scheduledAt ∧ s2.duration = s.duration
      ∧ s2.createdAt = s.createdAt
      ∧ mapGet idS (updateSessionStatus idS newStatus st).2.sessions = some s2
      ∧ (∀ id2, id2 ≠ idS →
          mapGet id2 (updateSessionStatus idS newStatus st).2.sessions
            = mapGet id2 st.sessions)
      ∧ (updateSessionStatus idS newStatus st).2.users = st.users
      ∧ (updateSessionStatus idS newStatus st).2.kanbanItems = st.kanbanItems)
    ∧ (∃ k2, (updateKanbanItem idK q st).1 = some k2
      ∧ k2.id = q.id.getD k.id
      ∧ k2.title = q.title.getD k.title
      ∧ k2.description = q.description.getD k.description
      ∧ k2.type = q.type.getD k.type
      ∧ k2.status = q.status.getD k.status
      ∧ k2.points = q.points.getD k.points
      ∧ k2.assignee = q.assignee.getD k.assignee
      ∧ k2.priority = q.priority.getD k.priority
      ∧ k2.progress = q.progress.getD k.progress
      ∧ k2.createdAt = q.createdAt.getD k.createdAt
      ∧ mapGet idK (updateKanbanItem idK q st).2.kanbanItems = some k2
      ∧ (∀ id2, id2 ≠ idK →
          mapGet id2 (updateKanbanItem idK q st).2.kanbanItems
            = mapGet id2 st.kanbanItems)
      ∧ (updateKanbanItem idK q st).2.users = st.users
      ∧ (updateKanbanItem idK q st).2.sessions = st.sessions) := by
  have eu : updateUser idU p st
      = (some (mergeUser u p),
         { st with users := mapSet idU (mergeUser u p) st.users }) := by
    simp [updateUser, hu]
  have es : updateSessionStatus idS newStatus st
      = (some { s with status := newStatus },
         { st with sessions := mapSet idS { s with status := newStatus } st.sessions }) := by
    simp [updateSessionStatus, hs]
  have ek : updateKanbanItem idK q st
      = (some (mergeKanban k q),
         { st with kanbanItems := mapSet idK (mergeKanban k q) st.kanbanItems }) := by
    simp [updateKanbanItem, hk]
  refine ⟨⟨mergeUser u p, ?_⟩, ⟨{ s with status := newStatus }, ?_⟩, ⟨mergeKanban k q, ?_⟩⟩
  · rw [eu]
    exact ⟨rfl, rfl, rfl, rfl, rfl, rfl, rfl, rfl, rfl, rfl, rfl, rfl, rfl, rfl, rfl,
      mapGet_mapSet_self _ _ _,
      fun id2 h2 => mapGet_mapSet_ne idU id2 _ _ h2, rfl, rfl⟩
  · rw [es]
    exact ⟨rfl, rfl, rfl, rfl, rfl, rfl, rfl, rfl, rfl, rfl,
      mapGet_mapSet_self _ _ _,
      fun id2 h2 => mapGet_mapSet_ne idS id2 _ _ h2, rfl, rfl⟩
  · rw [ek]
    exact ⟨rfl, rfl, rfl, rfl, rfl, rfl, rfl, rfl, rfl, rfl, rfl,
      mapGet_mapSet_self _ _ _,
      fun id2 h2 => mapGet_mapSet_ne idK id2 _ _ h2, rfl, rfl⟩

/-- Witness for C9 on the demo store. -/
theorem update_shallow_merge_frame_witness :
    ∃ u2, (updateUser "u1" {} demoStore).1 = some u2 ∧ u2.email = demoUser.email := by
  obtain ⟨⟨u2, h1, _, h2, _⟩, _, _⟩ :=
    update_shallow_merge_frame "u1" "s1" "k1" {} {} "confirmed" demoStore
      demoUser demoSession demoKanban rfl rfl rfl
  exact ⟨u2, h1, h2⟩

theorem emailsOf_eq (m : List (String × User)) :
    (mapValues m).map (fun u => u.email) = emailsOf m := by
  simp [mapValues, emailsOf, List.map_map, Function.comp]

/-- C5: starting from a state whose stored users have pairwise distinct
emails, the registration step (getUserByEmail check, then createUser
only when the check finds nobody) preserves the distinctness, and a
registration with an email already stored is rejected without touching
the store. -/
theorem register_email_uniqueness (freshId : String) (now : Int) (d : InsertUser)
    (st : MemStorage) (hd : distinctEmails st) :
    distinctEmails (register freshId now d st).2
    ∧ (∀ u, u ∈ mapValues st.users → u.email = d.email →
        register freshId now d st = (none, st)) := by
  constructor
  · cases hfind : getUserByEmail d.email st with
    | some w =>
        have : register freshId now d st = (none, st) := by simp [register, hfind]
        rw [this]
        exact hd
    | none =>
        have hne : d.email ∉ emailsOf st.users := by
          intro hmem
          rw [emailsOf, List.mem_map] at hmem
          obtain ⟨pr, hpr, he⟩ := hmem
          exact ((getUserByEmail_eq_none_iff d.email st).mp hfind) pr.2
            (List.mem_map_of_mem _ hpr) he
        have hrw : register freshId now d st
            = (some (createUser freshId now d st).1, (createUser freshId now d st).2) := by
          simp [register, hfind]
        rw [hrw]
        unfold distinctEmails
        rw [emailsOf_eq]
        exact nodup_emailsOf_mapSet freshId _ st.users hne
          (emailsOf_eq st.users ▸ hd)
  · intro u hu he
    cases hfind : getUserByEmail d.email st with
    | some w => simp [register, hfind]
    | none =>
        exact absurd he (((getUserByEmail_eq_none_iff d.email st).mp hfind) u hu)

/-- Witness for C5: the demo store has distinct emails, and registering
the demo payload (whose email is already stored) is rejected with the
store unchanged. -/
theorem register_email_uniqueness_witness :
    distinctEmails demoStore
    ∧ register "fresh-1" 5 demoInsertUser demoStore = (none, demoStore) := by
  have hd : distinctEmails demoStore := by unfold distinctEmails; decide
  exact ⟨hd, (register_email_uniqueness "fresh-1" 5 demoInsertUser demoStore hd).2
    demoUser (by decide) rfl⟩
